import Mathlib

/-!
Shallow embedding of the portfolio client script (src/script.js):
theme management, navigation active-link highlighting, one-shot
intersection animators, contact-form validation and submission, and
page initialization. Definitions are translated from the source;
theorems below settle the specification claims about them.
-/

namespace Portfolio

/-! ## Form validation (FormHandler.validateForm, src/script.js:241-250) -/

/-- A character admitted by the regex character class `[^\s@]`:
neither whitespace nor the at sign. -/
def isOkChar (c : Char) : Bool :=
  !c.isWhitespace && c != '@'

/-- Matcher for the regex fragment `[^\s@]*\.[^\s@]+` (with backtracking:
true exactly when some decomposition matches). -/
def dotRun : List Char → Bool
  | [] => false
  | c :: cs => (c == '.' && !cs.isEmpty && cs.all isOkChar) || (isOkChar c && dotRun cs)

/-- Matcher for the regex fragment `[^\s@]+\.[^\s@]+` (domain part after the at sign). -/
def domMatch : List Char → Bool
  | [] => false
  | c :: cs => isOkChar c && dotRun cs

/-- Matcher for the regex fragment `[^\s@]*@[^\s@]+\.[^\s@]+`. -/
def atRun : List Char → Bool
  | [] => false
  | c :: cs => (c == '@' && domMatch cs) || (isOkChar c && atRun cs)

/-- Matcher for the anchored email regex of the source,
`^[^\s@]+@[^\s@]+\.[^\s@]+$`: a nonempty run of `[^\s@]` characters, a
literal at sign, then the domain fragment. -/
def emailMatch : List Char → Bool
  | [] => false
  | c :: cs => isOkChar c && atRun cs

/-- `emailRegex.test email` of the source. -/
def emailRegexTest (s : String) : Bool :=
  emailMatch s.toList

/-- JavaScript `String.prototype.trim`: strip leading and trailing
whitespace. -/
def jsTrim (s : String) : String :=
  ⟨((s.toList.dropWhile Char.isWhitespace).reverse.dropWhile Char.isWhitespace).reverse⟩

/-- `FormHandler.validateForm`: each field value is trimmed; the result is
the truthiness of `name && email && emailRegex.test(email) && subject &&
message` (a JavaScript string is truthy exactly when nonempty). -/
def validateForm (name email subject message : String) : Bool :=
  let n := jsTrim name
  let e := jsTrim email
  let s := jsTrim subject
  let m := jsTrim message
  n != "" && (e != "" && (emailRegexTest e && (s != "" && m != "")))

/-! ## Theme management (ThemeManager, src/script.js:10-49) -/

/-- State touched by the theme manager: the in-memory `this.theme`, the
document attribute `data-theme` (absent before the first apply), the
aria-pressed flag on the toggle, and the per-origin store entry under the
key `theme` (absent when never written). -/
structure ThemeState where
  theme : String
  attr : Option String
  ariaPressed : Bool
  stored : Option String
  deriving Repr, DecidableEq

/-- `localStorage.getItem("theme") || "light"`: the stored value when
present and truthy (a nonempty string), else the default. -/
def themeFromStorage (stored : Option String) : String :=
  match stored with
  | none => "light"
  | some s => if s == "" then "light" else s

/-- `ThemeManager.applyTheme(theme)`: set the document attribute to the
argument, then `updateThemeToggle` sets aria-pressed from `this.theme`. -/
def applyTheme (t : String) (st : ThemeState) : ThemeState :=
  { st with attr := some t, ariaPressed := st.theme == "dark" }

/-- `ThemeManager.setTheme(theme)`: record the theme, apply it, and write
it to the store. -/
def setTheme (t : String) (st : ThemeState) : ThemeState :=
  let st := { st with theme := t }
  let st := applyTheme t st
  { st with stored := some t }

/-- `ThemeManager.toggleTheme`: flip between light and dark and set. -/
def toggleTheme (st : ThemeState) : ThemeState :=
  setTheme (if st.theme == "light" then "dark" else "light") st

/-- The constructor plus `init()`: read the stored preference defaulted to
light, apply it, and when the resulting theme is light while the OS
reports a dark preference, set dark. -/
def themeInit (stored0 : Option String) (osDark : Bool) : ThemeState :=
  let theme0 := themeFromStorage stored0
  let st : ThemeState :=
    { theme := theme0, attr := none, ariaPressed := false, stored := stored0 }
  let st := applyTheme theme0 st
  if theme0 == "light" && osDark then setTheme "dark" st else st

/-! ## Navigation (NavigationManager, src/script.js:55-142) -/

/-- Layout data of a section element: its `offsetTop` and `offsetHeight`. -/
structure HtmlSection where
  offsetTop : Nat
  offsetHeight : Nat
  deriving Repr, DecidableEq

/-- A navigation link: its `href` attribute (a fragment such as `#about`)
and whether it currently carries the `active` class. -/
structure NavLink where
  href : String
  active : Bool
  deriving Repr, DecidableEq

/-- The sections of the document, keyed by id (`document.getElementById`). -/
def getElementById (doc : List (String × HtmlSection)) (id : String) :
    Option HtmlSection :=
  (doc.find? (fun p => p.1 == id)).map (fun p => p.2)

/-- `NavigationManager.updateActiveLink()` with no argument: for each link
in order, drop the `active` class, look up the section named by the href
with its leading `#` removed, and re-add `active` when the probe point
`scrollY + 100` lies in `[offsetTop, offsetTop + offsetHeight)`. -/
def updateActiveLinkScroll (doc : List (String × HtmlSection)) (scrollY : Nat)
    (links : List NavLink) : List NavLink :=
  let scrollPos := scrollY + 100
  links.map fun link =>
    let link := { link with active := false }
    match getElementById doc (link.href.drop 1) with
    | some s =>
        if s.offsetTop ≤ scrollPos && scrollPos < s.offsetTop + s.offsetHeight then
          { link with active := true }
        else link
    | none => link

/-- Outcome of a click on a navigation link. -/
structure ClickResult where
  preventedDefault : Bool
  links : List NavLink
  deriving Repr, DecidableEq

/-- `NavigationManager.handleNavClick`: cancel the default navigation,
look the target up by the href, and when it exists run
`updateActiveLink(href)`, whose else branch marks exactly the links whose
href equals the argument (the scroll into view has no effect on classes). -/
def handleNavClick (doc : List (String × HtmlSection)) (links : List NavLink)
    (clickedHref : String) : ClickResult :=
  match getElementById doc (clickedHref.drop 1) with
  | some _ =>
      { preventedDefault := true
        links := links.map fun l =>
          let l := { l with active := false }
          if l.href == clickedHref then { l with active := true } else l }
  | none => { preventedDefault := true, links := links }

/-! ## One-shot animators (SkillAnimator and SectionAnimator,
src/script.js:148-209) -/

/-- Observer state of the skills section: whether the intersection
observer still watches it, the `hasAnimated` flag, and how many times
`animateSkills` has run. -/
structure SkillObs where
  observing : Bool
  hasAnimated : Bool
  invocations : Nat
  deriving Repr, DecidableEq

/-- One delivered intersection event for the skills section: events reach
the callback only while the target is observed; when it intersects and
`hasAnimated` is still false, animate, set the flag, and unobserve. -/
def skillStep (st : SkillObs) (isIntersecting : Bool) : SkillObs :=
  if st.observing && isIntersecting && !st.hasAnimated then
    { observing := false, hasAnimated := true, invocations := st.invocations + 1 }
  else st

/-- Observer state of one section element for `SectionAnimator`: whether
it is still observed, and how many times its reveal animation was set. -/
structure SectionObs where
  observing : Bool
  animations : Nat
  deriving Repr, DecidableEq

/-- One delivered intersection event for a section: while observed, an
intersecting event sets the animation and unobserves the element. -/
def sectionStep (st : SectionObs) (isIntersecting : Bool) : SectionObs :=
  if st.observing && isIntersecting then
    { observing := false, animations := st.animations + 1 }
  else st

/-- Deliver a list of intersection events to a freshly constructed
`SkillAnimator` watching the skills section. -/
def skillRun (events : List Bool) : SkillObs :=
  events.foldl skillStep { observing := true, hasAnimated := false, invocations := 0 }

/-- Deliver a list of intersection events to one section freshly observed
by `SectionAnimator`. -/
def sectionRun (events : List Bool) : SectionObs :=
  events.foldl sectionStep { observing := true, animations := 0 }

/-! ## Form submission (FormHandler, src/script.js:215-287) -/

/-- The four named field values of the contact form. -/
structure Fields where
  name : String
  email : String
  subject : String
  message : String
  deriving Repr, DecidableEq

/-- `validateForm` read off the form element. -/
def validateFields (f : Fields) : Bool :=
  validateForm f.name f.email f.subject f.message

/-- The same fields, each trimmed. -/
def trimFields (f : Fields) : Fields :=
  { name := jsTrim f.name, email := jsTrim f.email
    subject := jsTrim f.subject, message := jsTrim f.message }

/-- `form.reset()`: every field reverts to its (empty) default value. -/
def emptyFields : Fields :=
  { name := "", email := "", subject := "", message := "" }

/-- State touched by the form handler: the field values, the form action
URL, and the status element with its text, its class, and whether a
5000 ms reset of the class is pending. -/
structure FormDocState where
  fields : Fields
  action : String
  statusText : String
  statusClass : String
  timerPending : Bool
  deriving Repr, DecidableEq

/-- The outbound request `fetch(action, {method: "POST", body: formData,
headers: {Accept: "application/json"}})`. -/
structure FetchRequest where
  url : String
  method : String
  acceptJson : Bool
  body : List (String × String)
  deriving Repr, DecidableEq

/-- `new FormData(this.form)` serializes the current, untrimmed field
values. -/
def formDataOf (f : Fields) : List (String × String) :=
  [("name", f.name), ("email", f.email), ("subject", f.subject), ("message", f.message)]

/-- The single POST issued by `submitForm`. -/
def submitRequest (st : FormDocState) : FetchRequest :=
  { url := st.action, method := "POST", acceptJson := true
    body := formDataOf st.fields }

/-- `showStatus(message, type)`: set the status text, set the class to
`form-status` plus the type, and schedule the 5000 ms class reset. -/
def showStatus (message ty : String) (st : FormDocState) : FormDocState :=
  { st with
    statusText := message
    statusClass := "form-status " ++ ty
    timerPending := true }

/-- The 5000 ms timeout scheduled by `showStatus` fires: only the class
is reset to the neutral `form-status`; the text is left as it is. -/
def statusTimerFire (st : FormDocState) : FormDocState :=
  { st with statusClass := "form-status", timerPending := false }

/-- How the fetch settles: a success response (`response.ok`), an HTTP
failure response (the then branch throws), or a network rejection. -/
inductive FetchOutcome
  | ok
  | httpError
  | networkError
  deriving Repr, DecidableEq

/-- The continuation of `submitForm` once the fetch settles: on
`response.ok` show the success message and reset the form; otherwise the
thrown error or the rejection reaches the catch, which shows the failure
message and leaves the fields alone. -/
def submitResponse (o : FetchOutcome) (st : FormDocState) : FormDocState :=
  match o with
  | .ok =>
      let st := showStatus "Message sent successfully! I'll get back to you soon." "success" st
      { st with fields := emptyFields }
  | .httpError => showStatus "Failed to send message. Please try again." "error" st
  | .networkError => showStatus "Failed to send message. Please try again." "error" st

/-- `handleSubmit`: prevent default, validate; on failure show the error
status and stop with no request; on success hand the request to the
network (the response is handled by `submitResponse` when it arrives). -/
def handleSubmit (st : FormDocState) : FormDocState × Option FetchRequest :=
  if validateFields st.fields then
    (st, some (submitRequest st))
  else
    (showStatus "Please fill in all fields correctly" "error" st, none)

/-! ## Page initialization (DOMContentLoaded, src/script.js:365-376) -/

/-- Which of the elements the controllers look up are present in the
document. -/
structure PageDoc where
  themeToggle : Bool
  header : Bool
  mobileToggle : Bool
  navMenu : Bool
  skillsSection : Bool
  contactForm : Bool
  formStatus : Bool
  deriving Repr, DecidableEq

/-- Which features got their listeners or observers attached. -/
structure Attached where
  themeClick : Bool
  navClicks : Bool
  scrollHandlers : Bool
  skillObserver : Bool
  sectionObservers : Bool
  formSubmit : Bool
  deriving Repr, DecidableEq

/-- `new ThemeManager()`: the constructor stores the (possibly null)
toggle element; `init` calls `applyTheme`, whose `updateThemeToggle`
dereferences the toggle, and then attaches the click listener to it —
both throw a TypeError when the element is missing. -/
def themeManagerNew (d : PageDoc) : Except String Unit :=
  if d.themeToggle then .ok () else
    .error "TypeError: null themeToggle in ThemeManager.init"

/-- `new NavigationManager()`: `init` attaches listeners to each nav link
(an empty collection is fine) and to the mobile toggle, which throws when
missing; the header and the menu container are only dereferenced later,
inside scroll and click handlers. -/
def navigationManagerNew (d : PageDoc) : Except String Unit :=
  if d.mobileToggle then .ok () else
    .error "TypeError: null mobileToggle in NavigationManager.init"

/-- `new SkillAnimator()`: the observer is attached only behind an
explicit presence check of the skills section, so nothing throws. -/
def skillAnimatorNew (_ : PageDoc) : Except String Unit := .ok ()

/-- `new SectionAnimator()`: observes whatever sections exist. -/
def sectionAnimatorNew (_ : PageDoc) : Except String Unit := .ok ()

/-- `new FormHandler()`: `init` attaches the submit listener only behind
an explicit presence check of the form; the status element is only
dereferenced later, inside `showStatus`. -/
def formHandlerNew (_ : PageDoc) : Except String Unit := .ok ()

/-- `new SmoothScroll()` and `new LazyLoader()`: feature checks only. -/
def polyfillsNew (_ : PageDoc) : Except String Unit := .ok ()

/-- The `DOMContentLoaded` callback: construct the seven controllers in
order; a thrown constructor aborts the rest of the callback. On success,
report which features attached. -/
def domContentLoaded (d : PageDoc) : Except String Attached := do
  themeManagerNew d
  navigationManagerNew d
  skillAnimatorNew d
  sectionAnimatorNew d
  formHandlerNew d
  polyfillsNew d
  pure
    { themeClick := true
      navClicks := true
      scrollHandlers := true
      skillObserver := d.skillsSection
      sectionObservers := true
      formSubmit := d.contactForm }

/-! ## Concrete instances used by witnesses and counterexamples -/

/-- A concrete consistent theme state: light everywhere. -/
def demoLightState : ThemeState :=
  { theme := "light", attr := some "light", ariaPressed := false, stored := some "light" }

/-- A document with every expected element present except the theme toggle. -/
def pageDocMissingThemeToggle : PageDoc :=
  { themeToggle := false, header := true, mobileToggle := true, navMenu := true, skillsSection := true, contactForm := true, formStatus := true }

/-- A concrete form document state whose fields pass validation. -/
def demoFormState : FormDocState :=
  { fields := { name := "Jay", email := "jay@example.com", subject := "Hi", message := "Hello" }, action := "https://formspree.io/f/demo", statusText := "", statusClass := "form-status", timerPending := false }

/-- Field values carrying surrounding whitespace. -/
def paddedFields : Fields :=
  { name := " Jay ", email := " jay@example.com ", subject := " s ", message := " m " }

/-- The same field values with the whitespace already stripped. -/
def plainFields : Fields :=
  { name := "Jay", email := "jay@example.com", subject := "s", message := "m" }

/-- Modelled from the wording of claim C5 (not from the source), for
comparison with the source regex: the trimmed email contains no
whitespace, exactly one at sign, and at least one dot somewhere after the
at sign; every field is nonempty once trimmed. -/
def claimValidateForm (name email subject message : String) : Bool :=
  let e := (jsTrim email).toList
  jsTrim name != "" && jsTrim email != "" &&
    (e.all (fun c => !c.isWhitespace) && e.count '@' == 1 &&
      ((e.dropWhile (fun c => c != '@')).drop 1).contains '.') &&
    jsTrim subject != "" && jsTrim message != ""

/-! ## Lemmas: correctness of the email regex matcher -/

theorem dotRun_iff (cs : List Char) :
    dotRun cs = true ↔
      ∃ A B, cs = A ++ '.' :: B ∧ A.all isOkChar = true ∧ B ≠ [] ∧
        B.all isOkChar = true := by
  induction cs with
  | nil =>
      simp [dotRun]
  | cons c cs ih =>
      simp only [dotRun, Bool.or_eq_true, Bool.and_eq_true, beq_iff_eq, ih]
      constructor
      · rintro (⟨⟨rfl, hne⟩, hall⟩ | ⟨hok, A, B, rfl, hA, hB, hBok⟩)
        · refine ⟨[], cs, rfl, rfl, ?_, hall⟩
          simpa using hne
        · exact ⟨c :: A, B, rfl, by simp [hok, hA], hB, hBok⟩
      · rintro ⟨A, B, heq, hA, hB, hBok⟩
        cases A with
        | nil =>
            simp only [List.nil_append, List.cons.injEq] at heq
            obtain ⟨rfl, rfl⟩ := heq
            exact Or.inl ⟨⟨rfl, by simpa using hB⟩, hBok⟩
        | cons a A =>
            simp only [List.cons_append, List.cons.injEq] at heq
            obtain ⟨rfl, rfl⟩ := heq
            simp only [List.all_cons, Bool.and_eq_true] at hA
            exact Or.inr ⟨hA.1, A, B, rfl, hA.2, hB, hBok⟩

theorem domMatch_iff (cs : List Char) :
    domMatch cs = true ↔
      ∃ A B, cs = A ++ '.' :: B ∧ A ≠ [] ∧ A.all isOkChar = true ∧ B ≠ [] ∧
        B.all isOkChar = true := by
  cases cs with
  | nil =>
      simp [domMatch]
  | cons c cs =>
      simp only [domMatch, Bool.and_eq_true, dotRun_iff]
      constructor
      · rintro ⟨hok, A, B, rfl, hA, hB, hBok⟩
        exact ⟨c :: A, B, rfl, by simp, by simp [hok, hA], hB, hBok⟩
      · rintro ⟨A, B, heq, hAne, hA, hB, hBok⟩
        cases A with
        | nil => simp at hAne
        | cons a A =>
            simp only [List.cons_append, List.cons.injEq] at heq
            obtain ⟨rfl, rfl⟩ := heq
            simp only [List.all_cons, Bool.and_eq_true] at hA
            exact ⟨hA.1, A, B, rfl, hA.2, hB, hBok⟩

theorem atRun_iff (cs : List Char) :
    atRun cs = true ↔
      ∃ L R, cs = L ++ '@' :: R ∧ L.all isOkChar = true ∧ domMatch R = true := by
  induction cs with
  | nil =>
      simp [atRun]
  | cons c cs ih =>
      simp only [atRun, Bool.or_eq_true, Bool.and_eq_true, beq_iff_eq, ih]
      constructor
      · rintro (⟨rfl, hdom⟩ | ⟨hok, L, R, rfl, hL, hdom⟩)
        · exact ⟨[], cs, rfl, rfl, hdom⟩
        · exact ⟨c :: L, R, rfl, by simp [hok, hL], hdom⟩
      · rintro ⟨L, R, heq, hL, hdom⟩
        cases L with
        | nil =>
            simp only [List.nil_append, List.cons.injEq] at heq
            obtain ⟨rfl, rfl⟩ := heq
            exact Or.inl ⟨rfl, hdom⟩
        | cons a L =>
            simp only [List.cons_append, List.cons.injEq] at heq
            obtain ⟨rfl, rfl⟩ := heq
            simp only [List.all_cons, Bool.and_eq_true] at hL
            exact Or.inr ⟨hL.1, L, R, rfl, hL.2, hdom⟩

theorem emailMatch_iff (cs : List Char) :
    emailMatch cs = true ↔
      ∃ L A B, cs = L ++ '@' :: (A ++ '.' :: B) ∧
        L ≠ [] ∧ L.all isOkChar = true ∧
        A ≠ [] ∧ A.all isOkChar = true ∧
        B ≠ [] ∧ B.all isOkChar = true := by
  cases cs with
  | nil =>
      simp [emailMatch]
  | cons c cs =>
      simp only [emailMatch, Bool.and_eq_true, atRun_iff, domMatch_iff]
      constructor
      · rintro ⟨hok, L, R, rfl, hL, A, B, rfl, hAne, hA, hB, hBok⟩
        exact ⟨c :: L, A, B, rfl, by simp, by simp [hok, hL], hAne, hA, hB, hBok⟩
      · rintro ⟨L, A, B, heq, hLne, hL, hAne, hA, hB, hBok⟩
        cases L with
        | nil => simp at hLne
        | cons a L =>
            simp only [List.cons_append, List.cons.injEq] at heq
            obtain ⟨rfl, rfl⟩ := heq
            simp only [List.all_cons, Bool.and_eq_true] at hL
            exact ⟨hL.1, L, A ++ '.' :: B, rfl, hL.2, A, B, rfl, hAne, hA, hB, hBok⟩

/-! ## Claim theorems -/

/-- C1 (amended): the effective theme after `init` is `dark` whenever the
OS reports dark and the startup theme read from the store (defaulted to
light when nothing, or an empty string, is stored) is `light` — in
particular also when the stored value is exactly `light`; otherwise it is
the stored value when a nonempty one exists and `light` when not. The
document attribute agrees, and the store is written only when the dark
override fires. -/
theorem themeInit_effective (stored0 : Option String) (osDark : Bool) :
    (themeInit stored0 osDark).theme =
      (if (themeFromStorage stored0 == "light" && osDark) = true then "dark"
       else themeFromStorage stored0) ∧
    (themeInit stored0 osDark).attr = some (themeInit stored0 osDark).theme ∧
    (themeInit stored0 osDark).stored =
      (if (themeFromStorage stored0 == "light" && osDark) = true then some "dark"
       else stored0) := by
  cases h : (themeFromStorage stored0 == "light" && osDark) <;>
    simp [themeInit, setTheme, applyTheme, h]

/-- C1 counterexample: with `light` stored and the OS reporting dark, the
claim says the effective theme equals the stored value `light`; the code
yields `dark`. -/
theorem C1_counterexample :
    (themeInit (some "light") true).theme = "dark" ∧
      (themeInit (some "light") true).theme ≠ "light" := by
  constructor <;> decide

/-- C7 (amended): after every `toggleTheme` the stored value equals the
applied document attribute; after `init` the two agree exactly when the
dark override fired or a nonempty value was stored — in particular they
differ when nothing is stored and the OS does not report dark, where the
applied theme is `light` but the store stays empty. -/
theorem themeStore_tracks_applied :
    (∀ st : ThemeState, (toggleTheme st).stored = (toggleTheme st).attr) ∧
    (∀ (stored0 : Option String) (osDark : Bool),
      (themeInit stored0 osDark).stored = (themeInit stored0 osDark).attr ↔
        ((themeFromStorage stored0 == "light" && osDark) = true ∨
          ∃ x, stored0 = some x ∧ x ≠ "")) := by
  constructor
  · intro st
    simp [toggleTheme, setTheme, applyTheme]
  · intro s o
    cases h : (themeFromStorage s == "light" && o) with
    | true =>
        simp [themeInit, setTheme, applyTheme, h]
    | false =>
        simp only [themeInit, setTheme, applyTheme, h, Bool.false_eq_true, if_false]
        cases s with
        | none => simp [themeFromStorage]
        | some x =>
            by_cases hx : x = ""
            · subst hx
              simp [themeFromStorage]
            · simp [themeFromStorage, hx]

/-- C7 counterexample: immediately after an `init` with nothing stored and
the OS not dark, the store (still empty) does not equal the applied
theme, contradicting the claimed invariant at every point after init. -/
theorem C7_counterexample :
    (themeInit none false).stored ≠ (themeInit none false).attr := by
  decide

/-- C9 (amended): for a starting theme in \{light, dark\}, toggling twice
restores the in-memory theme, and sets the document attribute, the stored
value and the pressed indicator to match that theme — which restores them
whenever they already matched before the first call (as in every state
produced by `setTheme`), but not the store of a fresh never-written
state. -/
theorem toggleTheme_double_restores (st : ThemeState) (h : st.theme = "light" ∨ st.theme = "dark") :
    (toggleTheme (toggleTheme st)).theme = st.theme ∧
    (toggleTheme (toggleTheme st)).attr = some st.theme ∧
    (toggleTheme (toggleTheme st)).stored = some st.theme ∧
    (toggleTheme (toggleTheme st)).ariaPressed = (st.theme == "dark") := by
  rcases h with h | h <;> simp [toggleTheme, setTheme, applyTheme, h]

theorem toggleTheme_double_restores_witness :
    (toggleTheme (toggleTheme demoLightState)).theme = "light" ∧
    (toggleTheme (toggleTheme demoLightState)).attr = some "light" ∧
    (toggleTheme (toggleTheme demoLightState)).stored = some "light" ∧
    (toggleTheme (toggleTheme demoLightState)).ariaPressed = ("light" == "dark") :=
  toggleTheme_double_restores demoLightState (Or.inl rfl)

/-- C9 counterexample: starting from `init` with nothing stored and the OS
not dark, two toggles leave `light` in the store, whereas nothing was
stored before the first call: the stored value is not returned to what it
was. -/
theorem C9_counterexample :
    (toggleTheme (toggleTheme (themeInit none false))).stored ≠
      (themeInit none false).stored := by
  decide

/-- C2 (amended): after a scroll-driven `updateActiveLink()` with probe
point `scrollY + 100`, each link keeps its href, and carries the active
class exactly when its target section exists and contains the probe point
in `[offsetTop, offsetTop + offsetHeight)`; hence with no containing
section no link is active, and when several sections contain the probe
point every matching link is active (not only the last in DOM order). -/
theorem updateActiveLink_active_iff (doc : List (String × HtmlSection))
    (scrollY : Nat) (links : List NavLink) :
    List.Forall₂ (fun lin lout =>
        lout.href = lin.href ∧
        (lout.active = true ↔
          ∃ s, getElementById doc (lin.href.drop 1) = some s ∧
            s.offsetTop ≤ scrollY + 100 ∧ scrollY + 100 < s.offsetTop + s.offsetHeight))
      links (updateActiveLinkScroll doc scrollY links) := by
  unfold updateActiveLinkScroll
  rw [List.forall₂_map_right_iff, List.forall₂_same]
  intro l hl
  cases hfind : getElementById doc (l.href.drop 1) with
  | none => simp [hfind]
  | some s =>
      by_cases h1 : s.offsetTop ≤ scrollY + 100
      · by_cases h2 : scrollY + 100 < s.offsetTop + s.offsetHeight
        · simp [hfind, h1, h2]
        · simp [hfind, h1, h2]
      · simp [hfind, h1]

/-- C2 counterexample: with two sections whose ranges both contain the
probe point 150, both links end active, contradicting the claim that only
the last matching link in DOM order is active. -/
theorem C2_counterexample :
    (updateActiveLinkScroll [("a", ⟨0, 200⟩), ("b", ⟨100, 200⟩)] 50
        [⟨"#a", false⟩, ⟨"#b", false⟩]).map NavLink.active = [true, true] := by
  decide

/-- C6 (amended): a click always cancels default navigation; when the
href resolves to an existing target, exactly the links with that href
become active, independent of scroll position; when the target does not
exist, the active classes are left unchanged. -/
theorem handleNavClick_marks (doc : List (String × HtmlSection))
    (links : List NavLink) (href : String) :
    (handleNavClick doc links href).preventedDefault = true ∧
    List.Forall₂ (fun lin lout =>
        lout.href = lin.href ∧
        lout.active = (if (getElementById doc (href.drop 1)).isSome = true
          then lin.href == href else lin.active))
      links (handleNavClick doc links href).links := by
  cases hfind : getElementById doc (href.drop 1) with
  | none =>
      refine ⟨by simp [handleNavClick, hfind], ?_⟩
      simp only [handleNavClick, hfind, Option.isSome_none]
      rw [List.forall₂_same]
      intro l hl
      simp
  | some s =>
      refine ⟨by simp [handleNavClick, hfind], ?_⟩
      simp only [handleNavClick, hfind, Option.isSome_some]
      rw [List.forall₂_map_right_iff, List.forall₂_same]
      intro l hl
      by_cases h : l.href == href
      · simp [h]
      · simp [h]

/-- C6 counterexample: clicking a link whose target section does not
exist leaves the link inactive, contradicting the claim that clicking
always marks the clicked link active. -/
theorem C6_counterexample :
    (handleNavClick [] [{ href := "#x", active := false }] "#x").links =
      [{ href := "#x", active := false }] := by
  decide

/-- C4 (amended): page initialization succeeds exactly when the theme
toggle and the mobile toggle are present; then a missing skills section
or contact form only leaves its own feature unattached. A missing theme
toggle throws in `ThemeManager.init`, and a missing mobile toggle in
`NavigationManager.init`, aborting the rest of the DOMContentLoaded
callback. -/
theorem domContentLoaded_characterization (d : PageDoc) :
    domContentLoaded d =
      (if d.themeToggle then
        (if d.mobileToggle then
          Except.ok { themeClick := true, navClicks := true, scrollHandlers := true
                      skillObserver := d.skillsSection, sectionObservers := true
                      formSubmit := d.contactForm }
         else Except.error "TypeError: null mobileToggle in NavigationManager.init")
       else Except.error "TypeError: null themeToggle in ThemeManager.init") := by
  cases h1 : d.themeToggle <;> cases h2 : d.mobileToggle <;>
    simp [domContentLoaded, themeManagerNew, navigationManagerNew, skillAnimatorNew,
      sectionAnimatorNew, formHandlerNew, polyfillsNew, h1, h2, Bind.bind, Except.bind, Pure.pure, Except.pure]

/-- C4 counterexample: with only the theme toggle missing, page
initialization does not complete; it throws a TypeError, contradicting
the claim that no missing element is fatal. -/
theorem C4_counterexample :
    (domContentLoaded pageDocMissingThemeToggle).isOk = false ∧
      domContentLoaded pageDocMissingThemeToggle =
        Except.error "TypeError: null themeToggle in ThemeManager.init" := by
  constructor <;> rfl

theorem skillStep_absorbed (evs : List Bool) (st : SkillObs)
    (h : st.observing = false) : evs.foldl skillStep st = st := by
  induction evs with
  | nil => rfl
  | cons e evs ih =>
      rw [List.foldl_cons]
      have : skillStep st e = st := by simp [skillStep, h]
      rw [this, ih]

theorem sectionStep_absorbed (evs : List Bool) (st : SectionObs)
    (h : st.observing = false) : evs.foldl sectionStep st = st := by
  induction evs with
  | nil => rfl
  | cons e evs ih =>
      rw [List.foldl_cons]
      have : sectionStep st e = st := by simp [sectionStep, h]
      rw [this, ih]

theorem skillRun_invocations (evs : List Bool) :
    (skillRun evs).invocations = (if evs.any (fun b => b) then 1 else 0) := by
  unfold skillRun
  induction evs with
  | nil => rfl
  | cons e evs ih =>
      cases e with
      | false =>
          rw [List.foldl_cons]
          simpa [skillStep] using ih
      | true =>
          rw [List.foldl_cons]
          have h1 : skillStep { observing := true, hasAnimated := false, invocations := 0 } true =
              { observing := false, hasAnimated := true, invocations := 1 } := by
            simp [skillStep]
          rw [h1, skillStep_absorbed _ _ rfl]
          simp

theorem sectionRun_animations (evs : List Bool) :
    (sectionRun evs).animations = (if evs.any (fun b => b) then 1 else 0) := by
  unfold sectionRun
  induction evs with
  | nil => rfl
  | cons e evs ih =>
      cases e with
      | false =>
          rw [List.foldl_cons]
          simpa [sectionStep] using ih
      | true =>
          rw [List.foldl_cons]
          have h1 : sectionStep { observing := true, animations := 0 } true =
              { observing := false, animations := 1 } := by
            simp [sectionStep]
          rw [h1, sectionStep_absorbed _ _ rfl]
          simp

/-- C8: delivering two or more intersecting events to the skills observer
or to one observed section yields exactly one animation invocation: the
`hasAnimated` flag and the unobserve call make the reveal one-shot. -/
theorem oneShot_single_invocation (events : List Bool) (h : 2 ≤ events.count true) :
    (skillRun events).invocations = 1 ∧ (sectionRun events).animations = 1 := by
  have hmem : true ∈ events := List.count_pos_iff.mp (by omega)
  have hany : events.any (fun b => b) = true := List.any_eq_true.mpr ⟨true, hmem, rfl⟩
  rw [skillRun_invocations, sectionRun_animations, hany]
  exact ⟨rfl, rfl⟩

theorem oneShot_single_invocation_witness :
    2 ≤ ([true, true] : List Bool).count true ∧
      ((skillRun [true, true]).invocations = 1 ∧
        (sectionRun [true, true]).animations = 1) :=
  ⟨by decide, oneShot_single_invocation [true, true] (by decide)⟩

/-- C5 (amended): `validateForm` accepts exactly when the four trimmed
fields are nonempty and the trimmed email decomposes as a nonempty run of
non-whitespace non-at characters, an at sign, then a dot with nonempty
such runs on both sides — the dot after the at sign may be neither
immediately after it nor final, a stronger requirement than the claimed
"at least one dot after the at". -/
theorem validateForm_iff (n e s m : String) :
    validateForm n e s m = true ↔
      (jsTrim n ≠ "" ∧ jsTrim s ≠ "" ∧ jsTrim m ≠ "" ∧
        ∃ L A B : List Char,
          (jsTrim e).toList = L ++ '@' :: (A ++ '.' :: B) ∧
          L ≠ [] ∧ L.all isOkChar = true ∧
          A ≠ [] ∧ A.all isOkChar = true ∧
          B ≠ [] ∧ B.all isOkChar = true) := by
  simp only [validateForm, emailRegexTest, Bool.and_eq_true, bne_iff_ne, ne_eq,
    emailMatch_iff]
  constructor
  · rintro ⟨hn, he, ⟨L, A, B, heq, hrest⟩, hs, hm⟩
    exact ⟨hn, hs, hm, L, A, B, heq, hrest⟩
  · rintro ⟨hn, hs, hm, L, A, B, heq, hLne, hL, hAne, hA, hB, hBok⟩
    refine ⟨hn, ?_, ⟨L, A, B, heq, hLne, hL, hAne, hA, hB, hBok⟩, hs, hm⟩
    intro hcon
    rw [hcon] at heq
    exact absurd heq.symm (by simp)

/-- C5 counterexample: the email `a@b.` satisfies the claimed
characterization (no whitespace, one at sign, a dot after it) but the
source regex rejects it, so `validateForm` returns false where the claim
says true. -/
theorem C5_counterexample :
    claimValidateForm "A" "a@b." "s" "m" = true ∧
      validateForm "A" "a@b." "s" "m" = false := by
  constructor <;> decide

/-- C3 (amended): a validated submit issues exactly one POST to the form
action; a success response shows the success message and clears the
fields; a failing response or network error shows the failure message and
keeps the fields; and 5000 ms later the status class reverts to neutral
`form-status` in every case (the message text, however, is not emptied). -/
theorem submitForm_lifecycle (st : FormDocState)
    (h : validateFields st.fields = true) :
    (handleSubmit st).1 = st ∧
    (handleSubmit st).2 = some (submitRequest st) ∧
    (submitRequest st).url = st.action ∧
    (submitRequest st).method = "POST" ∧
    (submitResponse FetchOutcome.ok st).statusText =
      "Message sent successfully! I'll get back to you soon." ∧
    (submitResponse FetchOutcome.ok st).fields = emptyFields ∧
    (submitResponse FetchOutcome.httpError st).statusText =
      "Failed to send message. Please try again." ∧
    (submitResponse FetchOutcome.httpError st).fields = st.fields ∧
    (submitResponse FetchOutcome.networkError st).statusText =
      "Failed to send message. Please try again." ∧
    (submitResponse FetchOutcome.networkError st).fields = st.fields ∧
    (statusTimerFire (submitResponse FetchOutcome.ok st)).statusClass = "form-status" ∧
    (statusTimerFire (submitResponse FetchOutcome.httpError st)).statusClass =
      "form-status" ∧
    (statusTimerFire (submitResponse FetchOutcome.networkError st)).statusClass =
      "form-status" := by
  refine ⟨?_, ?_, rfl, rfl, rfl, rfl, rfl, rfl, rfl, rfl, rfl, rfl, rfl⟩
  · simp [handleSubmit, h]
  · simp [handleSubmit, h]

theorem submitForm_lifecycle_witness :
    validateFields demoFormState.fields = true ∧
      ((handleSubmit demoFormState).1 = demoFormState ∧
        (handleSubmit demoFormState).2 = some (submitRequest demoFormState) ∧
        (submitRequest demoFormState).url = demoFormState.action ∧
        (submitRequest demoFormState).method = "POST" ∧
        (submitResponse FetchOutcome.ok demoFormState).statusText =
          "Message sent successfully! I'll get back to you soon." ∧
        (submitResponse FetchOutcome.ok demoFormState).fields = emptyFields ∧
        (submitResponse FetchOutcome.httpError demoFormState).statusText =
          "Failed to send message. Please try again." ∧
        (submitResponse FetchOutcome.httpError demoFormState).fields = demoFormState.fields ∧
        (submitResponse FetchOutcome.networkError demoFormState).statusText =
          "Failed to send message. Please try again." ∧
        (submitResponse FetchOutcome.networkError demoFormState).fields =
          demoFormState.fields ∧
        (statusTimerFire (submitResponse FetchOutcome.ok demoFormState)).statusClass =
          "form-status" ∧
        (statusTimerFire (submitResponse FetchOutcome.httpError demoFormState)).statusClass =
          "form-status" ∧
        (statusTimerFire (submitResponse FetchOutcome.networkError demoFormState)).statusClass =
          "form-status") :=
  ⟨by decide, submitForm_lifecycle demoFormState (by decide)⟩

/-- C3 counterexample: after the 5000 ms timer fires, the status text
still holds the success message, contradicting the claimed reversion to
empty content. -/
theorem C3_counterexample :
    (statusTimerFire (submitResponse FetchOutcome.ok demoFormState)).statusText =
      "Message sent successfully! I'll get back to you soon." ∧
    (statusTimerFire (submitResponse FetchOutcome.ok demoFormState)).statusText ≠ "" := by
  constructor <;> decide

/-- C10: submit handling never writes the form fields; validation is a
function of the trimmed field values only; and the serialized POST body
holds the original, untrimmed values — demonstrated on padded fields that
validate yet serialize with their whitespace intact. -/
theorem validateForm_frame (st : FormDocState) (f g : Fields) :
    (handleSubmit st).1.fields = st.fields ∧
    (trimFields f = trimFields g → validateFields f = validateFields g) ∧
    (submitRequest st).body =
      [("name", st.fields.name), ("email", st.fields.email),
        ("subject", st.fields.subject), ("message", st.fields.message)] ∧
    validateFields paddedFields = true ∧
    formDataOf paddedFields =
      [("name", " Jay "), ("email", " jay@example.com "), ("subject", " s "),
        ("message", " m ")] := by
  refine ⟨?_, ?_, rfl, by decide, by decide⟩
  · by_cases h : validateFields st.fields = true
    · simp [handleSubmit, h]
    · simp [handleSubmit, h, showStatus]
  · intro h
    have h1 : jsTrim f.name = jsTrim g.name := congrArg Fields.name h
    have h2 : jsTrim f.email = jsTrim g.email := congrArg Fields.email h
    have h3 : jsTrim f.subject = jsTrim g.subject := congrArg Fields.subject h
    have h4 : jsTrim f.message = jsTrim g.message := congrArg Fields.message h
    simp only [validateFields, validateForm, h1, h2, h3, h4]

theorem validateForm_frame_witness :
    trimFields paddedFields = trimFields plainFields ∧
      ((handleSubmit demoFormState).1.fields = demoFormState.fields ∧
        (trimFields paddedFields = trimFields plainFields →
          validateFields paddedFields = validateFields plainFields) ∧
        (submitRequest demoFormState).body =
          [("name", demoFormState.fields.name), ("email", demoFormState.fields.email),
            ("subject", demoFormState.fields.subject),
            ("message", demoFormState.fields.message)] ∧
        validateFields paddedFields = true ∧
        formDataOf paddedFields =
          [("name", " Jay "), ("email", " jay@example.com "), ("subject", " s "),
            ("message", " m ")]) :=
  ⟨by decide, validateForm_frame demoFormState paddedFields plainFields⟩

end Portfolio
